import Mathlib

/-!
Shallow embedding of `src/cmd/main.go` of the bazel-demo-app repository:
the HTTP greeting service (router + handlers), and the startup sequence
performed by `runServer` (the dependency-demonstration steps, the legacy
XML/ID block, and the listener lifecycle), modelled as a trace of console
events plus a process exit status.  External libraries (godotenv, viper,
yaml, validator, go-cache, jwt-go, xmlquery, uuid, snowflake, gorilla/mux,
net/http) are embedded only through the observations this code makes of
them; results of calls that can fail at runtime are inputs of the model.
-/

namespace BazelDemo

/-- An HTTP response as observed by a client: status code, content type and
body.  Headers other than content type are never inspected by the spec. -/
structure Response where
  status : Nat
  contentType : String
  body : String
deriving Repr, DecidableEq

/-- An HTTP request as far as this service observes it: method, URL path,
and the ordered list of query parameters (key/value pairs, repetitions
preserved in client order). -/
structure Request where
  method : String
  path : String
  query : List (String × String)
deriving Repr, DecidableEq

/-- First value of a query key, in client order (Go `url.Values.Get`). -/
def queryLookup (key : String) : List (String × String) → Option String
  | [] => none
  | (k, v) :: rest => if k = key then some v else queryLookup key rest

/-- All values of a query key, in client order (Go `url.Values["name"]`). -/
def queryValues (key : String) (q : List (String × String)) : List String :=
  (q.filter (fun kv => kv.1 = key)).map (fun kv => kv.2)

/-- Modelled from the spec: the `handlers` package of this repository is not
under `src/` (only its caller `runServer` is).  Per §4.1: `Greet` reads a
single optional `name` parameter (default `"World"` if absent or empty) and
returns HTTP 200, `text/plain`, body `Hello, <name>!`. -/
def Greet (req : Request) : Response :=
  let name :=
    match queryLookup "name" req.query with
    | none => "World"
    | some s => if s = "" then "World" else s
  { status := 200, contentType := "text/plain", body := "Hello, " ++ name ++ "!" }

/-- Modelled from the spec: the `handlers` package of this repository is not
under `src/`.  Per §4.1: `GreetMany` reads the repeated `name` parameters in
client order, producing one `Hello, <name>!` line per name joined by
newlines, or a single default line when none were supplied. -/
def GreetMany (req : Request) : Response :=
  let names := queryValues "name" req.query
  let names := if names = [] then ["World"] else names
  { status := 200, contentType := "text/plain",
    body := String.intercalate "\n" (names.map (fun n => "Hello, " ++ n ++ "!")) }

/-- The two handlers registered on the router (main.go lines 164-165). -/
inductive HandlerRef
  | greet
  | greetMany
deriving Repr, DecidableEq

/-- The route table built in `runServer` (main.go lines 162-165): method,
path, handler.  Exactly two registrations, both restricted to GET. -/
def routes : List (String × String × HandlerRef) :=
  [("GET", "/greet", HandlerRef.greet), ("GET", "/greet-many", HandlerRef.greetMany)]

/-- Outcome of router dispatch. -/
inductive Dispatch
  | handler (h : HandlerRef)
  | methodNotAllowed
  | notFound
deriving Repr, DecidableEq

/-- Dispatch of gorilla/mux v1.8.0 (the routing library pinned in the
dependency file of the repository; an external collaborator, embedded through its
documented `ServeHTTP` fallback): a route whose path and method both match
wins; a path match with a method mismatch falls back to the
method-not-allowed handler (HTTP 405, `ErrMethodMismatch`); no path match
falls back to `http.NotFoundHandler` (HTTP 404). -/
def muxMatch (method path : String) : Dispatch :=
  match (routes.filter fun r => r.2.1 = path).find? (fun r => r.1 = method) with
  | some r => Dispatch.handler r.2.2
  | none =>
    if routes.any (fun r => r.2.1 = path) then Dispatch.methodNotAllowed
    else Dispatch.notFound

/-- A request served through the mux router installed by `runServer`:
matched handlers produce the greeting responses; the 405 fallback writes
only the status header; the 404 fallback is the standard Go not-found body. -/
def serveRequest (req : Request) : Response :=
  match muxMatch req.method req.path with
  | Dispatch.handler HandlerRef.greet => Greet req
  | Dispatch.handler HandlerRef.greetMany => GreetMany req
  | Dispatch.methodNotAllowed => { status := 405, contentType := "", body := "" }
  | Dispatch.notFound =>
      { status := 404, contentType := "text/plain; charset=utf-8",
        body := "404 page not found\n" }

/-- `Config` struct (main.go lines 33-37), with its validator tags:
`AppName` tagged `required`, `Port` tagged `required,min=1000,max=65535`,
`Debug` unconstrained.  Go `int` is modelled as `Int`; no arithmetic
overflows in range here. -/
structure Config where
  AppName : String
  Port : Int
  Debug : Bool
deriving Repr, DecidableEq

/-- A value in the viper configuration store. -/
inductive ViperVal
  | str (s : String)
  | int (i : Int)
  | bool (b : Bool)
deriving Repr, DecidableEq

/-- The viper defaults set in `demonstrateNewDependencies` (main.go lines
56-58).  No config file is read and no environment binding is installed
(`AutomaticEnv`/`BindEnv` are never called), so the getters below resolve
to these defaults. -/
def viperDefaults : List (String × ViperVal) :=
  [("app_name", ViperVal.str "bazel-demo-app"),
   ("port", ViperVal.int 5000),
   ("debug", ViperVal.bool true)]

/-- viper `GetString`: the stored string, or `""` when absent/not a string. -/
def viperGetString (key : String) : String :=
  match (viperDefaults.filter (fun kv => kv.1 = key)).head? with
  | some (_, ViperVal.str s) => s
  | _ => ""

/-- viper `GetInt`: the stored int, or `0` when absent/not an int. -/
def viperGetInt (key : String) : Int :=
  match (viperDefaults.filter (fun kv => kv.1 = key)).head? with
  | some (_, ViperVal.int i) => i
  | _ => 0

/-- viper `GetBool`: the stored bool, or `false` when absent/not a bool. -/
def viperGetBool (key : String) : Bool :=
  match (viperDefaults.filter (fun kv => kv.1 = key)).head? with
  | some (_, ViperVal.bool b) => b
  | _ => false

/-- The `Config` value built in `demonstrateNewDependencies` (main.go lines
62-66) from the viper getters. -/
def demoConfig : Config :=
  { AppName := viperGetString "app_name",
    Port := viperGetInt "port",
    Debug := viperGetBool "debug" }

/-- `validate.Struct(config)` per the struct tags: `required` on a string
means non-empty, `required` on an int means non-zero; `min=1000,max=65535`
bounds the port. -/
def validateConfig (c : Config) : Bool :=
  decide (c.AppName ≠ "") && decide (c.Port ≠ 0) &&
    decide (1000 ≤ c.Port) && decide (c.Port ≤ 65535)

/-- yaml.v3 `Marshal` of `Config` (human-readable structured text; exact
layout immaterial to every claim). -/
def yamlMarshal (c : Config) : String :=
  "app_name: " ++ c.AppName ++ "\nport: " ++ toString c.Port ++
    "\ndebug: " ++ toString c.Debug ++ "\n"

/-- Go `time.Minute` in nanoseconds. -/
def Minute : Int := 60000000000

/-- go-cache `DefaultExpiration` sentinel (resolved on `Set` to the default
duration of the cache). -/
def DefaultExpiration : Int := 0

/-- go-cache in-memory cache: default TTL plus the stored items, each with
an absolute expiration instant in nanoseconds (go-cache stores
`now + duration`, or `0` for no expiration when the duration is `≤ 0`). -/
structure Cache where
  defaultTTL : Int
  items : List (String × String × Int)
deriving Repr, DecidableEq

/-- `cache.New(defaultTTL, cleanupInterval)`: empty item map.  The cleanup
interval only drives the background janitor and is unobservable here. -/
def cacheNew (defaultTTL _cleanupInterval : Int) : Cache :=
  { defaultTTL := defaultTTL, items := [] }

/-- `c.Set(k, v, d)` at instant `now`: `DefaultExpiration` resolves to the
default TTL of the cache; a positive duration stores expiration `now + d`,
otherwise the item never expires (expiration `0`). -/
def cacheSet (c : Cache) (k v : String) (d now : Int) : Cache :=
  let d := if d = DefaultExpiration then c.defaultTTL else d
  let exp := if 0 < d then now + d else 0
  { c with items := (k, v, exp) :: c.items.filter (fun it => it.1 ≠ k) }

/-- `c.Get(k)` at instant `now`: the stored value, unless the item carries a
positive expiration instant that lies strictly in the past (go-cache:
`item.Expiration > 0 && now > item.Expiration` is a miss). -/
def cacheGet (c : Cache) (k : String) (now : Int) : Option String :=
  match (c.items.filter (fun it => it.1 = k)).head? with
  | none => none
  | some (_, v, exp) => if 0 < exp ∧ exp < now then none else some v

/-- The cache read-back branch of `demonstrateNewDependencies` (main.go
lines 79-81): a hit prints the retrieved value; the `if found` has no else
branch, so a miss emits nothing. -/
def cacheStepLines (getResult : Option String) : List String :=
  match getResult with
  | some v => ["✓ go-cache: Retrieved value from cache: " ++ v]
  | none => []

/-- A JWT claim value: the demo claim map holds a string and a unix
timestamp (main.go lines 84-87). -/
inductive JwtVal
  | str (s : String)
  | int (i : Int)
deriving Repr, DecidableEq

/-- The claim map passed to `jwt.NewWithClaims` (main.go lines 84-87):
`user: "demo-user"` and `exp: time.Now().Add(time.Hour * 24).Unix()`,
with `nowSec` the current unix time in seconds. -/
def jwtClaims (nowSec : Int) : List (String × JwtVal) :=
  [("user", JwtVal.str "demo-user"),
   ("exp", JwtVal.int (nowSec + 24 * 60 * 60))]

/-- The JWT step of `demonstrateNewDependencies` (main.go lines 84-89)
applied to the result of `token.SignedString`: the error, if any, is
discarded (`tokenString, _ :=`), and the code then evaluates
`tokenString[:20]`.  Go slicing past the end of the string panics, so a
signing failure (which leaves `tokenString` empty) or any token shorter
than 20 bytes aborts the process; otherwise the truncated-token line is
printed.  JWT tokens are ASCII, so byte slicing and character `take`
agree. -/
def jwtStep (signResult : Except String String) : Except String String :=
  let tokenString := match signResult with
    | Except.ok s => s
    | Except.error _ => ""
  if 20 ≤ tokenString.length then
    Except.ok ("✓ jwt-go: Generated JWT token (truncated): " ++
      (tokenString.take 20) ++ "...")
  else
    Except.error "panic: runtime error: slice bounds out of range [:20]"

/-- The only observation main.go makes of the fetched XML document is
`xmlquery.FindOne(wadl, "//application/@xmlns")` (line 159): the inner
text of that attribute node, or `none` when the query matches nothing
(xmlquery `FindOne` returns nil then). -/
structure XmlDoc where
  xmlnsAttr : Option String
deriving Repr, DecidableEq

/-- Outcomes of the external-library calls `runServer` makes that can fail
at runtime.  Each library is an opaque collaborator: its result is an input
of the model.  `jwtSign` is `token.SignedString` as a function of the claim
map it is given; `xmlFetch` is `xmlquery.LoadURL("https://httpbin.org/get")`;
`uuidNew` is `uuid.NewUUID()`; `snowflakeNode` is
`snowflake.NewNode(1)` followed by `Generate()`; `dotenvLoad` is
`godotenv.Load()` (its error is discarded by the code). -/
structure Env where
  dotenvLoad : Except String Unit
  jwtSign : List (String × JwtVal) → Except String String
  xmlFetch : Except String XmlDoc
  uuidNew : Except String String
  snowflakeNode : Except String Int

/-- `demonstrateNewDependencies` (main.go lines 50-110): the console lines
it emits in order, paired with `some panicMsg` when it aborts (only the JWT
truncation can panic; every other error in it is discarded or branches
silently).  `nowNs`/`nowSec` are the current instant in nanoseconds and
unix seconds. -/
def demonstrateNewDependencies (env : Env) (nowNs nowSec : Int) :
    List String × Option String :=
  let config := demoConfig
  let validatorLines :=
    if validateConfig config then ["✓ validator: Config validation passed"] else []
  let c := cacheSet (cacheNew (5 * Minute) (10 * Minute))
    "demo-key" "demo-value" DefaultExpiration nowNs
  let before :=
    ["✓ godotenv: Environment loaded",
     "✓ viper: Configuration set with defaults",
     "✓ yaml.v3: Config marshaled to YAML: " ++ yamlMarshal config] ++
    validatorLines ++
    cacheStepLines (cacheGet c "demo-key" nowNs)
  match jwtStep (env.jwtSign (jwtClaims nowSec)) with
  | Except.error p => (before, some p)
  | Except.ok jwtLine =>
    (before ++
      [jwtLine,
       "✓ testify/assert: Assertion passed",
       "✓ protobuf: Created protobuf timestamp: " ++ toString nowSec,
       "✓ color: All dependencies demonstrated successfully!",
       "✓ cobra: CLI framework initialized (see rootCmd)"], none)

/-- A console/lifecycle event of `runServer`, in emission order. -/
inductive Event
  /-- any console line printed during startup (fmt/color/logrus output) -/
  | outLine (s : String)
  /-- `log.Printf("server started at port %v\n", address)` (line 169) -/
  | logStartup
  /-- the listener bound successfully and begins accepting traffic -/
  | listen
  /-- a request handled through the router while serving -/
  | handleRequest (req : Request) (resp : Response)
  /-- `log.Printf("server closed\n")` (line 174) -/
  | logClosed
  /-- `log.Printf("error starting server: %s\n", err)` (line 176) -/
  | logError (msg : String)
deriving Repr, DecidableEq

/-- Everything `runServer` does before installing the router (main.go lines
122-160): the hello line, the demo banner and steps, then the legacy block
(XML fetch, netrc print, logrus line, UUID, snowflake, XPath attribute
print).  Returns the console lines emitted in order, with `some panicMsg`
when a step panics (fetch error, UUID error, snowflake error, JWT
truncation, or the nil XPath result being dereferenced).  The exact
rendering of `fmt.Println(netrc)` and of the logrus line is immaterial to
every claim. -/
def startupLines (env : Env) (nowNs nowSec : Int) : List String × Option String :=
  let pre := ["Hello world",
              "=== Demonstrating New Dependencies ==="]
  match demonstrateNewDependencies env nowNs nowSec with
  | (demoLines, some p) => (pre ++ demoLines, some p)
  | (demoLines, none) =>
    let ls1 := pre ++ demoLines ++ ["====================================="]
    match env.xmlFetch with
    | Except.error e => (ls1, some ("panic: " ++ e))
    | Except.ok wadl =>
      let ls2 := ls1 ++ ["netrc test test test", "Hello world"]
      match env.uuidNew with
      | Except.error e => (ls2, some ("panic: " ++ e))
      | Except.ok u =>
        let ls3 := ls2 ++ [u]
        match env.snowflakeNode with
        | Except.error e => (ls3, some ("panic: " ++ e))
        | Except.ok sfId =>
          let ls4 := ls3 ++ [toString sfId]
          match wadl.xmlnsAttr with
          | none =>
            (ls4, some "panic: runtime error: invalid memory address or nil pointer dereference")
          | some t => (ls4 ++ [t], none)

/-- How the `http.ListenAndServe(address, router)` call (line 171) ends:
the bind fails (no request is ever accepted), or the listener serves the
given requests and then either closes gracefully (`http.ErrServerClosed`)
or fails with another error. -/
inductive ServeOutcome
  | bindFailed (msg : String)
  | closed
  | failed (msg : String)
deriving Repr, DecidableEq

/-- The events after the startup steps succeed (main.go lines 162-178):
the startup log line is printed BEFORE `ListenAndServe` (line 169 precedes
line 171), then the listener either fails to bind (its error is logged) or
serves `reqs` through the router until it closes or fails. -/
def servePhase (reqs : List Request) : ServeOutcome → List Event
  | ServeOutcome.bindFailed msg => [Event.logError msg]
  | ServeOutcome.closed =>
      Event.listen ::
        reqs.map (fun r => Event.handleRequest r (serveRequest r)) ++
        [Event.logClosed]
  | ServeOutcome.failed msg =>
      Event.listen ::
        reqs.map (fun r => Event.handleRequest r (serveRequest r)) ++
        [Event.logError msg]

/-- How the process ends: a runtime panic (non-zero exit, Go runtime), or
an explicit exit code. -/
inductive ExitStatus
  | exit (code : Nat)
  | panicked (msg : String)
deriving Repr, DecidableEq

/-- Exit code of the tail of `runServer` (lines 173-178) plus `main`:
`http.ErrServerClosed` logs "server closed" and returns, and
`rootCmd.Execute()` then returns nil, so the process exits 0; any other
listener error (bind failure included) hits `os.Exit(1)`. -/
def exitOf : ServeOutcome → ExitStatus
  | ServeOutcome.closed => ExitStatus.exit 0
  | ServeOutcome.bindFailed _ => ExitStatus.exit 1
  | ServeOutcome.failed _ => ExitStatus.exit 1

/-- `runServer` (main.go lines 121-179) as a whole: the ordered trace of
events and the process exit status, given the external-call outcomes `env`,
the current instant, the requests the listener would serve, and how the
listener ends.  A startup panic truncates the trace and aborts before any
request is served. -/
def runServer (env : Env) (nowNs nowSec : Int) (reqs : List Request)
    (serve : ServeOutcome) : List Event × ExitStatus :=
  match startupLines env nowNs nowSec with
  | (lines, some p) => (lines.map Event.outLine, ExitStatus.panicked p)
  | (lines, none) =>
      (lines.map Event.outLine ++ [Event.logStartup] ++ servePhase reqs serve,
       exitOf serve)

/-! Concrete external-call outcomes used for witnesses and counterexamples:
a token of ordinary JWT length, a successfully fetched document carrying
the queried attribute, and successful ID generation. -/

/-- A JWT-shaped signing result of ordinary length (37 characters). -/
def goodToken : String := "eyJhbGciOiJIUzI1NiIsInR5cCI6IkpXVCJ9.a"

/-- External outcomes in which every fallible call succeeds. -/
def envGood : Env :=
  { dotenvLoad := Except.ok (),
    jwtSign := fun _ => Except.ok goodToken,
    xmlFetch := Except.ok { xmlnsAttr := some "http://wadl.dev.java.net/2009/02" },
    uuidNew := Except.ok "8f14e45f-ceea-11ee-9d4e-0242ac120002",
    snowflakeNode := Except.ok 1234567890 }

/-- Like `envGood` but the XML fetch fails (e.g. the host is unreachable). -/
def envXmlFail : Env :=
  { envGood with xmlFetch := Except.error "connection refused" }

/-- Like `envGood` but `token.SignedString` returns an error. -/
def envJwtFail : Env :=
  { envGood with jwtSign := fun _ => Except.error "key is of invalid type" }

/-- Like `envGood` but the fetched document has no `//application/@xmlns`
attribute (true of the JSON actually served by the fetched URL). -/
def envNoAttr : Env :=
  { envGood with xmlFetch := Except.ok { xmlnsAttr := none } }

/-- A sample request to the single-greeting endpoint. -/
def reqAda : Request := { method := "GET", path := "/greet", query := [("name", "Ada")] }

/-- The startup steps complete without a panic exactly when the JWT signing
returned a token of at least 20 bytes, the XML fetch succeeded with a
document carrying the queried attribute, and UUID and snowflake generation
succeeded.  The godotenv outcome, the validator outcome and the cache
outcome never appear: they cannot abort startup. -/
theorem startupLines_none_iff (env : Env) (n s : Int) :
    (startupLines env n s).2 = none ↔
      ((∃ tok, env.jwtSign (jwtClaims s) = Except.ok tok ∧ 20 ≤ tok.length) ∧
       (∃ doc t, env.xmlFetch = Except.ok doc ∧ doc.xmlnsAttr = some t) ∧
       (∃ u, env.uuidNew = Except.ok u) ∧
       (∃ k, env.snowflakeNode = Except.ok k)) := by
  cases hj : env.jwtSign (jwtClaims s) with
  | error e =>
    simp [startupLines, demonstrateNewDependencies, jwtStep, hj]
  | ok tok =>
    by_cases hlen : 20 ≤ tok.length
    · cases hx : env.xmlFetch with
      | error e =>
        simp [startupLines, demonstrateNewDependencies, jwtStep, hj, hlen, hx]
      | ok wadl =>
        cases hu : env.uuidNew with
        | error e =>
          simp [startupLines, demonstrateNewDependencies, jwtStep, hj, hlen, hx, hu]
        | ok u =>
          cases hsf : env.snowflakeNode with
          | error e =>
            simp [startupLines, demonstrateNewDependencies, jwtStep, hj, hlen, hx, hu, hsf]
          | ok k =>
            cases ha : wadl.xmlnsAttr with
            | none =>
              simp [startupLines, demonstrateNewDependencies, jwtStep, hj, hlen, hx, hu, hsf, ha]
            | some t =>
              simp [startupLines, demonstrateNewDependencies, jwtStep, hj, hlen, hx, hu, hsf, ha]
    · simp [startupLines, demonstrateNewDependencies, jwtStep, hj, hlen]

/-- In a list split as `l1 ++ l2`, with no `Q`-element in `l1` and no
`P`-element in `l2`, every `P`-position comes strictly before every
`Q`-position. -/
theorem sep_index_lt {α : Type} (P Q : α → Prop) (t l1 l2 : List α)
    (ht : t = l1 ++ l2)
    (h1 : ∀ e ∈ l1, ¬ Q e) (h2 : ∀ e ∈ l2, ¬ P e)
    (i j : Nat) (hi : i < t.length) (hj : j < t.length)
    (hP : P (t.get ⟨i, hi⟩)) (hQ : Q (t.get ⟨j, hj⟩)) : i < j := by
  subst ht
  rw [List.get_eq_getElem] at hP hQ
  have hi1 : i < l1.length := by
    by_contra hc
    push_neg at hc
    rw [List.getElem_append_right hc] at hP
    exact h2 _ (List.getElem_mem _) hP
  have hj1 : l1.length ≤ j := by
    by_contra hc
    push_neg at hc
    rw [List.getElem_append_left hc] at hQ
    exact h1 _ (List.getElem_mem _) hQ
  omega

/-- No event of the serving phase is a startup console line. -/
theorem servePhase_no_outLine (reqs : List Request) (serve : ServeOutcome) :
    ∀ e ∈ servePhase reqs serve, ∀ t, e ≠ Event.outLine t := by
  intro e he t
  cases serve with
  | bindFailed msg => simp [servePhase] at he; subst he; simp
  | closed =>
    simp [servePhase] at he
    rcases he with rfl | ⟨a, -, rfl⟩ | rfl <;> simp
  | failed msg =>
    simp [servePhase] at he
    rcases he with rfl | ⟨a, -, rfl⟩ | rfl <;> simp

/-- Nothing of the serving phase occurs before it: neither the startup
console lines nor the startup log line are `listen` or `handleRequest`
events. -/
theorem startup_no_serving_events (lines : List String) :
    ∀ e ∈ lines.map Event.outLine ++ [Event.logStartup],
      ¬ (e = Event.listen ∨ ∃ r resp, e = Event.handleRequest r resp) := by
  intro e he hq
  simp [List.mem_append, List.mem_map] at he
  rcases he with ⟨a, -, rfl⟩ | rfl <;> rcases hq with h | ⟨r, resp, h⟩ <;> simp_all

/-- C2: every GET request to `/greet` is answered with HTTP 200,
content-type `text/plain`, and body `Hello, <name>!` where `<name>` is the
value of the `name` query parameter, or `World` when that parameter is
absent or empty. -/
theorem c2_greet_contract (q : List (String × String)) :
    (serveRequest { method := "GET", path := "/greet", query := q }).status = 200 ∧
    (serveRequest { method := "GET", path := "/greet", query := q }).contentType
      = "text/plain" ∧
    (∀ name, queryLookup "name" q = some name → name ≠ "" →
      (serveRequest { method := "GET", path := "/greet", query := q }).body
        = "Hello, " ++ name ++ "!") ∧
    (queryLookup "name" q = none →
      (serveRequest { method := "GET", path := "/greet", query := q }).body
        = "Hello, World!") ∧
    (queryLookup "name" q = some "" →
      (serveRequest { method := "GET", path := "/greet", query := q }).body
        = "Hello, World!") := by
  have hserve : serveRequest { method := "GET", path := "/greet", query := q }
      = Greet { method := "GET", path := "/greet", query := q } := rfl
  refine ⟨rfl, rfl, ?_, ?_, ?_⟩
  · intro name hn hne
    rw [hserve]
    simp [Greet, hn, hne]
  · intro hn
    rw [hserve]
    simp [Greet, hn]
    rfl
  · intro hn
    rw [hserve]
    simp [Greet, hn]
    rfl

/-- C2 witness: the contract evaluated at a named and at an empty query. -/
theorem c2_witness :
    (serveRequest { method := "GET", path := "/greet", query := [("name", "Ada")] }).body
      = "Hello, Ada!" ∧
    (serveRequest { method := "GET", path := "/greet", query := [] }).body
      = "Hello, World!" :=
  ⟨(c2_greet_contract [("name", "Ada")]).2.2.1 "Ada" rfl (by decide),
   (c2_greet_contract []).2.2.2.1 rfl⟩

/-- C5 counterexample: the claim says every method/path combination other
than the two registered routes yields HTTP 404, but `POST /greet` — a
registered path with a mismatched method — yields the gorilla/mux
method-mismatch fallback, HTTP 405, not 404. -/
theorem c5_counterexample :
    (serveRequest { method := "POST", path := "/greet", query := [] }).status = 405 ∧
    ¬ (serveRequest { method := "POST", path := "/greet", query := [] }).status = 404 := by
  decide

/-- C5 amended: the router maps exactly `GET /greet` to `Greet` and
`GET /greet-many` to `GreetMany`; a request for any other PATH yields
HTTP 404, while a registered path with any other method yields the mux
method-mismatch response HTTP 405. -/
theorem c5_amended_routing :
    muxMatch "GET" "/greet" = Dispatch.handler HandlerRef.greet ∧
    muxMatch "GET" "/greet-many" = Dispatch.handler HandlerRef.greetMany ∧
    (∀ m p q, p ≠ "/greet" → p ≠ "/greet-many" →
      (serveRequest { method := m, path := p, query := q }).status = 404) ∧
    (∀ m q, m ≠ "GET" →
      (serveRequest { method := m, path := "/greet", query := q }).status = 405 ∧
      (serveRequest { method := m, path := "/greet-many", query := q }).status
        = 405) := by
  refine ⟨rfl, rfl, ?_, ?_⟩
  · intro m p q hp1 hp2
    have h1 : ¬ ("/greet" = p) := fun h => hp1 h.symm
    have h2 : ¬ ("/greet-many" = p) := fun h => hp2 h.symm
    simp [serveRequest, muxMatch, routes, List.filter, List.find?, List.any, h1, h2]
  · intro m q hm
    have h1 : ¬ ("GET" = m) := fun h => hm h.symm
    constructor <;>
      simp [serveRequest, muxMatch, routes, List.filter, List.find?, List.any, h1]

/-- C5 witness: the amended routing evaluated at an unknown path and at a
mismatched method. -/
theorem c5_witness :
    (serveRequest { method := "GET", path := "/unknown", query := [] }).status = 404 ∧
    (serveRequest { method := "DELETE", path := "/greet-many", query := [] }).status
      = 405 :=
  ⟨c5_amended_routing.2.2.1 "GET" "/unknown" [] (by decide) (by decide),
   (c5_amended_routing.2.2.2 "DELETE" [] (by decide)).2⟩

/-- Projection: a startup panic fixes the exit status. -/
theorem runServer_snd_some (env : Env) (n s : Int) (reqs : List Request)
    (serve : ServeOutcome) (lines : List String) (p : String)
    (h : startupLines env n s = (lines, some p)) :
    (runServer env n s reqs serve).2 = ExitStatus.panicked p := by
  simp [runServer, h]

/-- Projection: with no startup panic the exit status comes from the
listener outcome alone. -/
theorem runServer_snd_none (env : Env) (n s : Int) (reqs : List Request)
    (serve : ServeOutcome) (lines : List String)
    (h : startupLines env n s = (lines, none)) :
    (runServer env n s reqs serve).2 = exitOf serve := by
  simp [runServer, h]

/-- Projection: a startup panic truncates the trace to the startup lines. -/
theorem runServer_fst_some (env : Env) (n s : Int) (reqs : List Request)
    (serve : ServeOutcome) (lines : List String) (p : String)
    (h : startupLines env n s = (lines, some p)) :
    (runServer env n s reqs serve).1 = lines.map Event.outLine := by
  simp [runServer, h]

/-- Projection: with no startup panic the trace is the startup lines, the
startup log line, then the serving phase. -/
theorem runServer_fst_none (env : Env) (n s : Int) (reqs : List Request)
    (serve : ServeOutcome) (lines : List String)
    (h : startupLines env n s = (lines, none)) :
    (runServer env n s reqs serve).1
      = lines.map Event.outLine ++ [Event.logStartup] ++ servePhase reqs serve := by
  simp [runServer, h]

/-- C8 counterexample: the claim says a cache miss is logged, but the miss
branch of the cache demo step (the `if found` with no else, main.go lines
79-81) emits no line at all. -/
theorem c8_counterexample : cacheStepLines none = [] := rfl

/-- C8 amended: the cache demo step stores exactly the pair
`demo-key -> demo-value` with the fixed 5-minute default expiration and
immediately reads it back; the read-back always succeeds at the same
instant, a hit logs the retrieved value, and a miss would be silently
skipped — nothing logged — without aborting the process (there is no
mismatch check at all). -/
theorem c8_amended_cache (now : Int) :
    (cacheSet (cacheNew (5 * Minute) (10 * Minute)) "demo-key" "demo-value"
        DefaultExpiration now).items
      = [("demo-key", "demo-value", now + 5 * Minute)] ∧
    cacheGet
        (cacheSet (cacheNew (5 * Minute) (10 * Minute)) "demo-key" "demo-value"
          DefaultExpiration now)
        "demo-key" now = some "demo-value" ∧
    cacheStepLines (some "demo-value")
      = ["✓ go-cache: Retrieved value from cache: demo-value"] ∧
    cacheStepLines none = [] := by
  refine ⟨?_, ?_, rfl, rfl⟩
  · simp [cacheSet, cacheNew, DefaultExpiration, Minute]
  · simp [cacheGet, cacheSet, cacheNew, DefaultExpiration, Minute, List.filter]

/-- C9: the `DemoConfig` built at startup carries the defaults
`bazel-demo-app`/5000/true, passes validation, and the validation predicate
holds exactly when the name is non-empty and the port lies in
[1000, 65535] (the `required` non-zero condition on the port is subsumed by
the lower bound). -/
theorem c9_demo_config (cfg : Config) :
    demoConfig = { AppName := "bazel-demo-app", Port := 5000, Debug := true } ∧
    validateConfig demoConfig = true ∧
    (validateConfig cfg = true ↔
      (cfg.AppName ≠ "" ∧ 1000 ≤ cfg.Port ∧ cfg.Port ≤ 65535)) := by
  refine ⟨rfl, rfl, ?_⟩
  simp only [validateConfig, Bool.and_eq_true, decide_eq_true_eq]
  constructor
  · rintro ⟨⟨⟨h1, h2⟩, h3⟩, h4⟩
    exact ⟨h1, h3, h4⟩
  · rintro ⟨h1, h3, h4⟩
    exact ⟨⟨⟨h1, by omega⟩, h3⟩, h4⟩

/-- C3: with the startup sequence completing, a graceful listener close
(`http.ErrServerClosed`) exits the process with code 0, while a bind
failure or any other listener error exits with code 1. -/
theorem c3_exit_codes (env : Env) (n s : Int) (reqs : List Request)
    (hok : (startupLines env n s).2 = none) :
    (runServer env n s reqs ServeOutcome.closed).2 = ExitStatus.exit 0 ∧
    (∀ msg, (runServer env n s reqs (ServeOutcome.bindFailed msg)).2
      = ExitStatus.exit 1) ∧
    (∀ msg, (runServer env n s reqs (ServeOutcome.failed msg)).2
      = ExitStatus.exit 1) := by
  rcases h : startupLines env n s with ⟨lines, op⟩
  rw [h] at hok
  simp only at hok
  subst hok
  exact ⟨runServer_snd_none env n s reqs _ lines h,
    fun msg => runServer_snd_none env n s reqs _ lines h,
    fun msg => runServer_snd_none env n s reqs _ lines h⟩

/-- C3 witness: exit codes evaluated with every external call succeeding. -/
theorem c3_witness :
    (runServer envGood 0 0 [] ServeOutcome.closed).2 = ExitStatus.exit 0 ∧
    (runServer envGood 0 0 []
      (ServeOutcome.bindFailed "listen tcp :5000: bind: address already in use")).2
      = ExitStatus.exit 1 :=
  ⟨(c3_exit_codes envGood 0 0 [] (by decide)).1,
   (c3_exit_codes envGood 0 0 [] (by decide)).2.1
     "listen tcp :5000: bind: address already in use"⟩

/-- C1 counterexample: the claim lists the XML fetch among the StartupDemo
steps whose failure never takes the fatal path, but a fetch error hits
`panic(err)` (main.go lines 130-133): the process aborts even though the
listener itself would have closed gracefully. -/
theorem c1_counterexample :
    (runServer envXmlFail 0 0 [] ServeOutcome.closed).2
      = ExitStatus.panicked "panic: connection refused" ∧
    (runServer envXmlFail 0 0 [] ServeOutcome.closed).2 ≠ ExitStatus.exit 0 := by
  constructor <;> decide

/-- C1 amended: failures of the demonstrateNewDependencies steps that the
code actually tolerates (environment load, config validation, cache
read-back) never take the fatal path — they do not even appear in the
condition below — but the process survives startup and exits 0 exactly
when JWT signing returned a token of at least 20 bytes (a signing failure
panics through the `tokenString[:20]` truncation), the XML fetch succeeded,
the fetched document carries the `//application/@xmlns` attribute, UUID and
snowflake generation succeeded, and the listener closed gracefully; every
other combination is fatal. -/
theorem c1_amended_fatal_paths (env : Env) (n s : Int) (reqs : List Request)
    (serve : ServeOutcome) :
    (runServer env n s reqs serve).2 = ExitStatus.exit 0 ↔
      ((∃ tok, env.jwtSign (jwtClaims s) = Except.ok tok ∧ 20 ≤ tok.length) ∧
       (∃ doc t, env.xmlFetch = Except.ok doc ∧ doc.xmlnsAttr = some t) ∧
       (∃ u, env.uuidNew = Except.ok u) ∧
       (∃ k, env.snowflakeNode = Except.ok k) ∧
       serve = ServeOutcome.closed) := by
  have hiff := startupLines_none_iff env n s
  rcases h : startupLines env n s with ⟨lines, op⟩
  rw [h] at hiff
  simp only at hiff
  cases op with
  | some p =>
    rw [runServer_snd_some env n s reqs serve lines p h]
    constructor
    · intro hc
      exact absurd hc (by simp)
    · rintro ⟨hA, hB, hC, hD, -⟩
      have hcontra : (some p : Option String) = none := hiff.mpr ⟨hA, hB, hC, hD⟩
      exact absurd hcontra (by simp)
  | none =>
    rw [runServer_snd_none env n s reqs serve lines h]
    have hconds := hiff.mp rfl
    cases serve with
    | closed => simpa [exitOf] using hconds
    | bindFailed msg => simp [exitOf]
    | failed msg => simp [exitOf]

/-- C4: every startup console line (the demo steps and the legacy block)
occupies a strictly earlier position in the trace of `runServer` than every
handled request: `StartupDemo` finishes before any `GreetingService`
request is served. -/
theorem c4_startup_before_requests (env : Env) (n s : Int) (reqs : List Request)
    (serve : ServeOutcome) (i j : Nat)
    (hi : i < (runServer env n s reqs serve).1.length)
    (hj : j < (runServer env n s reqs serve).1.length)
    (str : String)
    (hout : (runServer env n s reqs serve).1.get ⟨i, hi⟩ = Event.outLine str)
    (hserving : (runServer env n s reqs serve).1.get ⟨j, hj⟩ = Event.listen ∨
      ∃ r resp, (runServer env n s reqs serve).1.get ⟨j, hj⟩
        = Event.handleRequest r resp) :
    i < j := by
  rcases h : startupLines env n s with ⟨lines, op⟩
  cases op with
  | some p =>
    refine sep_index_lt (fun e => e = Event.outLine str)
      (fun e => e = Event.listen ∨ ∃ r resp, e = Event.handleRequest r resp)
      (runServer env n s reqs serve).1 (lines.map Event.outLine) [] ?_ ?_ ?_
      i j hi hj hout hserving
    · rw [runServer_fst_some env n s reqs serve lines p h, List.append_nil]
    · intro e he hq
      simp [List.mem_map] at he
      rcases he with ⟨a, -, rfl⟩
      rcases hq with hq | ⟨r, resp, hq⟩ <;> simp_all
    · intro e he
      simp at he
  | none =>
    refine sep_index_lt (fun e => e = Event.outLine str)
      (fun e => e = Event.listen ∨ ∃ r resp, e = Event.handleRequest r resp)
      (runServer env n s reqs serve).1
      (lines.map Event.outLine ++ [Event.logStartup]) (servePhase reqs serve)
      ?_ ?_ ?_ i j hi hj hout hserving
    · rw [runServer_fst_none env n s reqs serve lines h]
    · intro e he hq
      exact startup_no_serving_events lines e he hq
    · intro e he hp
      exact servePhase_no_outLine reqs serve e he str hp

/-- C4 witness: the ordering applied to a concrete trace in which position
0 is a startup line and position 20 is the handled request. -/
theorem c4_witness : (0 : Nat) < 20 :=
  c4_startup_before_requests envGood 0 0 [reqAda] ServeOutcome.closed 0 20
    (by decide) (by decide) "Hello world"
    (by decide) (Or.inr ⟨reqAda, serveRequest reqAda, by decide⟩)

/-- C6 counterexample: the claim says the startup message is logged only
after a successful bind and never on bind failure, but `log.Printf("server
started at port ...")` (main.go line 169) runs BEFORE `http.ListenAndServe`
(line 171), so the startup message is in the trace even when the bind
fails. -/
theorem c6_counterexample :
    Event.logStartup ∈
      (runServer envGood 0 0 []
        (ServeOutcome.bindFailed "listen tcp :5000: bind: address already in use")).1 ∧
    (runServer envGood 0 0 []
        (ServeOutcome.bindFailed "listen tcp :5000: bind: address already in use")).2
      = ExitStatus.exit 1 := by
  constructor <;> decide

/-- C6 amended: the startup message is logged immediately BEFORE the bind
attempt, so it appears in the trace even when the bind fails; a bind
failure still never enters Serving — no `listen` event, no request is ever
handled — and the process exits non-zero. -/
theorem c6_amended_startup_log (env : Env) (n s : Int) (reqs : List Request)
    (msg : String) (hok : (startupLines env n s).2 = none) :
    Event.logStartup ∈ (runServer env n s reqs (ServeOutcome.bindFailed msg)).1 ∧
    Event.listen ∉ (runServer env n s reqs (ServeOutcome.bindFailed msg)).1 ∧
    (∀ r resp, Event.handleRequest r resp ∉
      (runServer env n s reqs (ServeOutcome.bindFailed msg)).1) ∧
    (runServer env n s reqs (ServeOutcome.bindFailed msg)).2 = ExitStatus.exit 1 := by
  rcases h : startupLines env n s with ⟨lines, op⟩
  rw [h] at hok
  simp only at hok
  subst hok
  rw [runServer_fst_none env n s reqs _ lines h,
    runServer_snd_none env n s reqs _ lines h]
  refine ⟨?_, ?_, ?_, rfl⟩
  · simp [servePhase]
  · simp [servePhase]
  · intro r resp
    simp [servePhase]

/-- C6 witness: the amended statement evaluated on a failing bind with all
external calls succeeding. -/
theorem c6_witness :
    Event.logStartup ∈
      (runServer envGood 0 0 [] (ServeOutcome.bindFailed "bind failed")).1 ∧
    (runServer envGood 0 0 [] (ServeOutcome.bindFailed "bind failed")).2
      = ExitStatus.exit 1 :=
  ⟨(c6_amended_startup_log envGood 0 0 [] "bind failed" (by decide)).1,
   (c6_amended_startup_log envGood 0 0 [] "bind failed" (by decide)).2.2.2⟩

/-- C7 counterexample: the claim says a signing failure is logged and does
not abort the process, but the code discards the signing error and then
evaluates `tokenString[:20]` on the empty token (main.go lines 88-89),
which panics: the process aborts and nothing is logged about the failure. -/
theorem c7_counterexample :
    (runServer envJwtFail 0 0 [] ServeOutcome.closed).2
      = ExitStatus.panicked "panic: runtime error: slice bounds out of range [:20]" ∧
    (runServer envJwtFail 0 0 [] ServeOutcome.closed).2 ≠ ExitStatus.exit 0 := by
  constructor <;> decide

/-- C7 amended: the JWT demo step builds the fixed claim set
`user = demo-user, exp = now + 24h` (a 24-hour expiration); a signing
failure is silently discarded and the subsequent 20-byte truncation of the
empty token string panics, aborting the process. -/
theorem c7_amended_jwt (env : Env) (n s : Int) (reqs : List Request) (e : String)
    (hsig : env.jwtSign (jwtClaims s) = Except.error e) :
    jwtClaims s
      = [("user", JwtVal.str "demo-user"), ("exp", JwtVal.int (s + 86400))] ∧
    (runServer env n s reqs ServeOutcome.closed).2
      = ExitStatus.panicked "panic: runtime error: slice bounds out of range [:20]" := by
  constructor
  · simp [jwtClaims]
  · rcases h : startupLines env n s with ⟨lines, op⟩
    have hop : op = some "panic: runtime error: slice bounds out of range [:20]" := by
      have h2 : (startupLines env n s).2
          = some "panic: runtime error: slice bounds out of range [:20]" := by
        simp [startupLines, demonstrateNewDependencies, jwtStep, hsig]
      rw [h] at h2
      exact h2
    subst hop
    exact runServer_snd_some env n s reqs _ lines _ h

/-- C7 witness: the amended statement evaluated on a concrete failing
signer. -/
theorem c7_witness :
    jwtClaims 0 = [("user", JwtVal.str "demo-user"), ("exp", JwtVal.int 86400)] ∧
    (runServer envJwtFail 0 0 [] ServeOutcome.closed).2
      = ExitStatus.panicked "panic: runtime error: slice bounds out of range [:20]" :=
  c7_amended_jwt envJwtFail 0 0 [] "key is of invalid type" rfl

/-- C10: whenever the XML fetch succeeds but the fetched document has no
`//application/@xmlns` attribute, `xmlquery.FindOne` returns nil and
`attr.InnerText()` (main.go lines 159-160) dereferences it without a nil
check: the process panics and no request is ever served. -/
theorem c10_xpath_nil_panic (env : Env) (n s : Int) (reqs : List Request)
    (serve : ServeOutcome) (doc : XmlDoc)
    (hf : env.xmlFetch = Except.ok doc) (ha : doc.xmlnsAttr = none) :
    (∃ msg, (runServer env n s reqs serve).2 = ExitStatus.panicked msg) ∧
    (∀ r resp, Event.handleRequest r resp ∉ (runServer env n s reqs serve).1) := by
  rcases h : startupLines env n s with ⟨lines, op⟩
  cases op with
  | none =>
    exfalso
    have hc := (startupLines_none_iff env n s).mp (by rw [h])
    rcases hc with ⟨-, ⟨doc2, t, hf2, ha2⟩, -, -⟩
    rw [hf] at hf2
    injection hf2 with hd
    subst hd
    rw [ha] at ha2
    exact Option.noConfusion ha2
  | some p =>
    refine ⟨⟨p, runServer_snd_some env n s reqs serve lines p h⟩, ?_⟩
    intro r resp hmem
    rw [runServer_fst_some env n s reqs serve lines p h] at hmem
    simp [List.mem_map] at hmem

/-- C10 witness: with a fetched document lacking the attribute, the handled
request is indeed absent from the trace. -/
theorem c10_witness :
    Event.handleRequest reqAda (serveRequest reqAda) ∉
      (runServer envNoAttr 0 0 [reqAda] ServeOutcome.closed).1 :=
  (c10_xpath_nil_panic envNoAttr 0 0 [reqAda] ServeOutcome.closed
    { xmlnsAttr := none } rfl rfl).2 reqAda (serveRequest reqAda)

/-- C1 witness: with every external call succeeding and a graceful close,
the process exits 0 — no non-listener failure occurred, so the fatal path
is not taken. -/
theorem c1_witness :
    (runServer envGood 0 0 [] ServeOutcome.closed).2 = ExitStatus.exit 0 :=
  (c1_amended_fatal_paths envGood 0 0 [] ServeOutcome.closed).mpr
    ⟨⟨goodToken, rfl, by decide⟩,
     ⟨{ xmlnsAttr := some "http://wadl.dev.java.net/2009/02" },
       "http://wadl.dev.java.net/2009/02", rfl, rfl⟩,
     ⟨"8f14e45f-ceea-11ee-9d4e-0242ac120002", rfl⟩,
     ⟨1234567890, rfl⟩, rfl⟩

/-- C8 witness: the amended cache behaviour evaluated at instant 0. -/
theorem c8_witness :
    cacheGet
        (cacheSet (cacheNew (5 * Minute) (10 * Minute)) "demo-key" "demo-value"
          DefaultExpiration 0)
        "demo-key" 0 = some "demo-value" :=
  (c8_amended_cache 0).2.1

/-- C9 witness: the validation predicate evaluated on a concrete
non-default configuration. -/
theorem c9_witness :
    validateConfig { AppName := "x", Port := 2000, Debug := false } = true :=
  (c9_demo_config { AppName := "x", Port := 2000, Debug := false }).2.2.mpr
    ⟨by decide, by decide, by decide⟩

end BazelDemo
